import Mathlib

/-!
Shallow embedding of `src/lab7.py`, a small fitness-tracker calculation model:
an abstract training session with three concrete variants (Running,
SportsWalking, Swimming), each computing distance, mean speed and spent
calories from its constructor parameters, plus a dispatcher `read_package`
mapping an activity code to the matching constructor.

Python floating-point numbers are modelled by exact rationals (`ℚ`); all the
formulas in the source are plain field arithmetic, and every displayed value
in the claims is exactly representable, so the exact model agrees with the
source on every quantity the claims mention.  Division by zero follows the
Lean convention `x / 0 = 0`; the claims about division all carry a
nonzero-divisor hypothesis.  Python exceptions are modelled by `Except` with
an explicit error type: the dispatcher's `ValueError` carries its message
string exactly as in the source, and the `TypeError` that Python raises when
a constructor is called with the wrong number of positional arguments is
modelled by a distinct constructor recording the expected and supplied
arities.
-/

namespace Lab7

/-- The three concrete training classes of `lab7.py`, as one inductive:
`Running(action, duration, weight)`,
`SportsWalking(action, duration, weight, height)`,
`Swimming(action, duration, weight, pool_length, pool_count)`. -/
inductive Training where
  | running (action duration weight : ℚ)
  | sportsWalking (action duration weight height : ℚ)
  | swimming (action duration weight pool_length pool_count : ℚ)
deriving DecidableEq

namespace Running

/-- `Running.CALORIES_MEAN_SPEED_MULTIPLIER = 18`. -/
def CALORIES_MEAN_SPEED_MULTIPLIER : ℚ := 18

/-- `Running.CALORIES_MEAN_SPEED_SHIFT = 1.79`. -/
def CALORIES_MEAN_SPEED_SHIFT : ℚ := 1.79

/-- `Running.LEN_STEP = 0.65` (step length in metres). -/
def LEN_STEP : ℚ := 0.65

end Running

namespace SportsWalking

/-- `SportsWalking.CALORIES_WEIGHT_MULTIPLIER = 0.035`. -/
def CALORIES_WEIGHT_MULTIPLIER : ℚ := 0.035

/-- `SportsWalking.CALORIES_SPEED_HEIGHT_MULTIPLIER = 0.029`. -/
def CALORIES_SPEED_HEIGHT_MULTIPLIER : ℚ := 0.029

/-- `SportsWalking.LEN_STEP = 0.65` (step length in metres). -/
def LEN_STEP : ℚ := 0.65

end SportsWalking

namespace Swimming

/-- `Swimming.LEN_STEP = 1.38` (stroke length in metres). -/
def LEN_STEP : ℚ := 1.38

/-- `Swimming.CALORIES_SWIM_MULTIPLIER = 1.1`. -/
def CALORIES_SWIM_MULTIPLIER : ℚ := 1.1

/-- `Swimming.CALORIES_SWIM_SHIFT = 2`. -/
def CALORIES_SWIM_SHIFT : ℚ := 2

end Swimming

/-- The `action` attribute set by `Training.__init__`. -/
def Training.action : Training → ℚ
  | .running a _ _ => a
  | .sportsWalking a _ _ _ => a
  | .swimming a _ _ _ _ => a

/-- The `duration` attribute set by `Training.__init__` (hours). -/
def Training.duration : Training → ℚ
  | .running _ d _ => d
  | .sportsWalking _ d _ _ => d
  | .swimming _ d _ _ _ => d

/-- The `weight` attribute set by `Training.__init__` (kilograms). -/
def Training.weight : Training → ℚ
  | .running _ _ w => w
  | .sportsWalking _ _ w _ => w
  | .swimming _ _ w _ _ => w

/-- `get_distance`, as overridden by each class: `action * LEN_STEP / 1000`
with the class's own `LEN_STEP`. -/
def Training.get_distance : Training → ℚ
  | .running a _ _ => a * Running.LEN_STEP / 1000
  | .sportsWalking a _ _ _ => a * SportsWalking.LEN_STEP / 1000
  | .swimming a _ _ _ _ => a * Swimming.LEN_STEP / 1000

/-- `get_mean_speed`: every class implements it as
`self.get_distance() / self.duration`. -/
def Training.get_mean_speed (t : Training) : ℚ :=
  t.get_distance / t.duration

/-- `get_spent_calories`, as overridden by each class, literally transcribing
the three formulas of `lab7.py`. -/
def Training.get_spent_calories : Training → ℚ
  | .running a d w =>
      (Running.CALORIES_MEAN_SPEED_MULTIPLIER
          * (Training.running a d w).get_mean_speed
        + Running.CALORIES_MEAN_SPEED_SHIFT) * w * d
  | .sportsWalking a d w h =>
      (SportsWalking.CALORIES_WEIGHT_MULTIPLIER * w
        + ((Training.sportsWalking a d w h).get_mean_speed ^ 2 / h)
          * SportsWalking.CALORIES_SPEED_HEIGHT_MULTIPLIER * w)
        * d * 60
  | .swimming a d w pl pc =>
      ((Training.swimming a d w pl pc).get_mean_speed
          + Swimming.CALORIES_SWIM_MULTIPLIER)
        * Swimming.CALORIES_SWIM_SHIFT * w * d

/-- `self.__class__.__name__`, used by `show_training_info`. -/
def Training.className : Training → String
  | .running _ _ _ => "Running"
  | .sportsWalking _ _ _ _ => "SportsWalking"
  | .swimming _ _ _ _ _ => "Swimming"

/-- Zero-pad a number below 1000 to three digits (the fractional part of a
`.3f` rendering). -/
def pad3 (k : Nat) : String :=
  if k < 10 then "00" ++ toString k
  else if k < 100 then "0" ++ toString k
  else toString k

/-- Python's `{x:.3f}` formatting for the nonnegative values the program
displays: round to the nearest thousandth and print with exactly three
decimal places.  (Tie-breaking conventions are immaterial: no displayed value
is a tie.) -/
def format3 (q : ℚ) : String :=
  let n : ℤ := ⌊q * 1000 + 1 / 2⌋
  let m : Nat := n.toNat
  toString (m / 1000) ++ "." ++ pad3 (m % 1000)

/-- `show_training_info`: the summary line of `lab7.py`, with its exact
(Russian) field labels. -/
def Training.show_training_info (t : Training) : String :=
  "Тип тренировки: " ++ t.className
    ++ "; Длительность: " ++ format3 t.duration
    ++ " ч; Дистанция: " ++ format3 t.get_distance
    ++ " км; Ср. скорость: " ++ format3 t.get_mean_speed
    ++ " км/ч; Потрачено ккал: " ++ format3 t.get_spent_calories ++ "."

/-- Errors `read_package` can surface: the explicit
`ValueError('Неизвестный тип тренировки')` of the source, and the `TypeError`
Python raises when a constructor is called with the wrong number of
positional arguments (recorded with the expected and supplied arities). -/
inductive PyError where
  | valueError (msg : String)
  | typeError (expected got : Nat)
deriving DecidableEq

/-- `read_package(workout_type, data)`: look the code up in
`{RUN: Running, WLK: SportsWalking, SWM: Swimming}` and spread `data`
positionally into the constructor; an unknown code raises the `ValueError`,
and a wrong argument count makes the constructor call itself raise a
`TypeError` before any instance exists. -/
def read_package (workout_type : String) (data : List ℚ) : Except PyError Training :=
  if workout_type = "RUN" then
    match data with
    | [a, d, w] => .ok (.running a d w)
    | _ => .error (.typeError 3 data.length)
  else if workout_type = "WLK" then
    match data with
    | [a, d, w, h] => .ok (.sportsWalking a d w h)
    | _ => .error (.typeError 4 data.length)
  else if workout_type = "SWM" then
    match data with
    | [a, d, w, pl, pc] => .ok (.swimming a d w pl pc)
    | _ => .error (.typeError 5 data.length)
  else
    .error (.valueError "Неизвестный тип тренировки")

end Lab7

namespace Lab7

/-! Helper lemmas shared by the claim theorems. -/

/-- Evaluate `format3` once the rounded thousandths are known. -/
theorem format3_eq_of_floor (q : ℚ) (n : ℕ) (h : ⌊q * 1000 + 1 / 2⌋ = (n : ℤ)) :
    format3 q = toString (n / 1000) ++ "." ++ pad3 (n % 1000) := by
  unfold format3
  simp only [h, Int.toNat_natCast]

/-- `format3` renders `1` as `"1.000"`. -/
theorem format3_one : format3 (1 : ℚ) = "1.000" := by
  rw [format3_eq_of_floor (1 : ℚ) 1000 (by rw [Int.floor_eq_iff]; norm_num)]
  rfl

/-- `format3` renders `9.75` as `"9.750"`. -/
theorem format3_975 : format3 (9.75 : ℚ) = "9.750" := by
  rw [format3_eq_of_floor (9.75 : ℚ) 9750 (by rw [Int.floor_eq_iff]; norm_num)]
  rfl

/-- `format3` renders `13296.75` as `"13296.750"`. -/
theorem format3_1329675 : format3 (13296.75 : ℚ) = "13296.750" := by
  rw [format3_eq_of_floor (13296.75 : ℚ) 13296750 (by rw [Int.floor_eq_iff]; norm_num)]
  rfl

/-- The distance of `Running(15000, 1, 75)` is exactly `9.75` km. -/
theorem running_example_distance : (Training.running 15000 1 75).get_distance = 9.75 := by
  norm_num [Training.get_distance, Running.LEN_STEP]

/-- The mean speed of `Running(15000, 1, 75)` is exactly `9.75` km/h. -/
theorem running_example_speed : (Training.running 15000 1 75).get_mean_speed = 9.75 := by
  norm_num [Training.get_mean_speed, Training.get_distance, Training.duration, Running.LEN_STEP]

/-- The calories of `Running(15000, 1, 75)` are exactly
`(18 * 9.75 + 1.79) * 75 * 1 = 13296.75`. -/
theorem running_example_calories :
    (Training.running 15000 1 75).get_spent_calories = 13296.75 := by
  norm_num [Training.get_spent_calories, Training.get_mean_speed, Training.get_distance,
    Training.duration, Running.LEN_STEP, Running.CALORIES_MEAN_SPEED_MULTIPLIER,
    Running.CALORIES_MEAN_SPEED_SHIFT]

/-- C1 (counterexample): `read_package("RUN", [15000, 1, 75])` yields the
Running instance, but its spent calories are exactly `13296.75`, rendered by
the 3-decimal formatter as `"13296.750"` — not the `698.437` the claim's
summary text states. -/
theorem claim_C1_counterexample :
    read_package "RUN" [15000, 1, 75] = Except.ok (Training.running 15000 1 75) ∧
    (Training.running 15000 1 75).get_spent_calories = 13296.75 ∧
    format3 (13296.75 : ℚ) = "13296.750" ∧
    (13296.75 : ℚ) ≠ 698.437 :=
  ⟨rfl, running_example_calories, format3_1329675, by norm_num⟩

/-- C1 (amended): `read_package("RUN", [15000, 1, 75])` yields a Running
instance whose summary, with the source's localized labels, reads duration
`1.000`, distance `9.750`, mean speed `9.750` and calories `13296.750`
(3-decimal precision, fixed field order). -/
theorem claim_C1 :
    read_package "RUN" [15000, 1, 75] = Except.ok (Training.running 15000 1 75) ∧
    (Training.running 15000 1 75).show_training_info =
      "Тип тренировки: Running; Длительность: 1.000 ч; Дистанция: 9.750 км; Ср. скорость: 9.750 км/ч; Потрачено ккал: 13296.750." := by
  refine ⟨rfl, ?_⟩
  unfold Training.show_training_info
  rw [show (Training.running 15000 1 75).duration = 1 from rfl,
    running_example_distance, running_example_speed, running_example_calories,
    format3_one, format3_975, format3_1329675]
  rfl

/-- C2: for every session, `get_distance()` is `action * step-length / 1000`,
with step length `0.65` for Running and SportsWalking and `1.38` for
Swimming. -/
theorem claim_C2 (a d w h pl pc : ℚ) :
    (Training.running a d w).get_distance = a * 0.65 / 1000 ∧
    (Training.sportsWalking a d w h).get_distance = a * 0.65 / 1000 ∧
    (Training.swimming a d w pl pc).get_distance = a * 1.38 / 1000 :=
  ⟨rfl, rfl, rfl⟩

/-- C3: for every variant, when the duration is nonzero,
`get_mean_speed()` equals `get_distance() / duration`. -/
theorem claim_C3 (t : Training) (h : t.duration ≠ 0) :
    t.get_mean_speed = t.get_distance / t.duration :=
  rfl

/-- C3 witness at `Running(15000, 1, 75)`. -/
theorem claim_C3_witness :
    (Training.running 15000 1 75).duration ≠ 0 ∧
    (Training.running 15000 1 75).get_mean_speed =
      (Training.running 15000 1 75).get_distance / (Training.running 15000 1 75).duration :=
  ⟨by norm_num [Training.duration],
    claim_C3 (Training.running 15000 1 75) (by norm_num [Training.duration])⟩

/-- C4: for every Running session, `get_spent_calories()` equals
`(18 * mean_speed + 1.79) * weight * duration` with `mean_speed` the value of
`get_mean_speed()`. -/
theorem claim_C4 (a d w : ℚ) :
    (Training.running a d w).get_spent_calories =
      (18 * (Training.running a d w).get_mean_speed + 1.79) * w * d :=
  rfl

/-- C5: for every SportsWalking session with nonzero height,
`get_spent_calories()` equals
`(0.035 * weight + (mean_speed^2 / height) * 0.029 * weight) * duration * 60`
with `mean_speed` the value of `get_mean_speed()`. -/
theorem claim_C5 (a d w h : ℚ) (hh : h ≠ 0) :
    (Training.sportsWalking a d w h).get_spent_calories =
      (0.035 * w + ((Training.sportsWalking a d w h).get_mean_speed ^ 2 / h) * 0.029 * w)
        * d * 60 :=
  rfl

/-- C5 witness at `SportsWalking(9000, 1, 75, 180)`. -/
theorem claim_C5_witness :
    (180 : ℚ) ≠ 0 ∧
    (Training.sportsWalking 9000 1 75 180).get_spent_calories =
      (0.035 * 75 + ((Training.sportsWalking 9000 1 75 180).get_mean_speed ^ 2 / 180)
        * 0.029 * 75) * 1 * 60 :=
  ⟨by norm_num, claim_C5 9000 1 75 180 (by norm_num)⟩

/-- C6: for every Swimming session, `get_spent_calories()` equals
`(mean_speed + 1.1) * 2 * weight * duration` with `mean_speed` the value of
`get_mean_speed()`. -/
theorem claim_C6 (a d w pl pc : ℚ) :
    (Training.swimming a d w pl pc).get_spent_calories =
      ((Training.swimming a d w pl pc).get_mean_speed + 1.1) * 2 * w * d :=
  rfl

/-- C7 (counterexample): the error raised for an unknown activity code is the
fixed `ValueError('Неизвестный тип тренировки')`; two different offending
codes produce identical errors, so the error does not carry the offending
code. -/
theorem claim_C7_counterexample :
    read_package "XYZ" [1, 1, 1] = Except.error (PyError.valueError "Неизвестный тип тренировки") ∧
    read_package "ABC" [1, 1, 1] = read_package "XYZ" [1, 1, 1] ∧
    ("XYZ" : String) ≠ "ABC" :=
  ⟨rfl, rfl, by decide⟩

/-- C7 (amended): each code in {RUN, WLK, SWM} constructs the matching
variant by passing the arguments positionally, and any code outside that set
fails with a `ValueError` carrying the fixed message
`Неизвестный тип тренировки` (which does not include the offending code). -/
theorem claim_C7 (a d w h pl pc : ℚ) (code : String) (data : List ℚ)
    (hc : code ≠ "RUN" ∧ code ≠ "WLK" ∧ code ≠ "SWM") :
    read_package "RUN" [a, d, w] = Except.ok (Training.running a d w) ∧
    read_package "WLK" [a, d, w, h] = Except.ok (Training.sportsWalking a d w h) ∧
    read_package "SWM" [a, d, w, pl, pc] = Except.ok (Training.swimming a d w pl pc) ∧
    read_package code data = Except.error (PyError.valueError "Неизвестный тип тренировки") := by
  refine ⟨rfl, rfl, rfl, ?_⟩
  unfold read_package
  rw [if_neg hc.1, if_neg hc.2.1, if_neg hc.2.2]

/-- C7 witness at code `"XYZ"` with data `[1, 1, 1]`. -/
theorem claim_C7_witness :
    (("XYZ" : String) ≠ "RUN" ∧ ("XYZ" : String) ≠ "WLK" ∧ ("XYZ" : String) ≠ "SWM") ∧
    read_package "XYZ" [1, 1, 1] = Except.error (PyError.valueError "Неизвестный тип тренировки") :=
  ⟨⟨by decide, by decide, by decide⟩,
    (claim_C7 1 1 1 1 1 1 "XYZ" [1, 1, 1] ⟨by decide, by decide, by decide⟩).2.2.2⟩

/-- C8: for two Swimming sessions agreeing on action, duration and weight,
`get_distance()` and `get_mean_speed()` are equal whatever the two pool
parameters are; in particular swapping `pool_length` and `pool_count` changes
neither. -/
theorem claim_C8 (a d w pl₁ pc₁ pl₂ pc₂ : ℚ) :
    (Training.swimming a d w pl₁ pc₁).get_distance
        = (Training.swimming a d w pl₂ pc₂).get_distance ∧
    (Training.swimming a d w pl₁ pc₁).get_mean_speed
        = (Training.swimming a d w pl₂ pc₂).get_mean_speed :=
  ⟨rfl, rfl⟩

/-- C9: for each known code, a data list whose length differs from the
variant's constructor arity (3 for Running, 4 for SportsWalking, 5 for
Swimming) makes `read_package` fail at construction with the arity
`TypeError` — producing no instance — and that fault is distinct from the
unknown-code `ValueError`. -/
theorem claim_C9 (data : List ℚ) :
    (data.length ≠ 3 → read_package "RUN" data = Except.error (PyError.typeError 3 data.length)) ∧
    (data.length ≠ 4 → read_package "WLK" data = Except.error (PyError.typeError 4 data.length)) ∧
    (data.length ≠ 5 → read_package "SWM" data = Except.error (PyError.typeError 5 data.length)) ∧
    (∀ n m msg, PyError.typeError n m ≠ PyError.valueError msg) := by
  refine ⟨fun hlen => ?_, fun hlen => ?_, fun hlen => ?_,
    fun n m msg hcontra => PyError.noConfusion hcontra⟩
  · exact match data, hlen with
      | [], _ => rfl
      | [_], _ => rfl
      | [_, _], _ => rfl
      | [_, _, _], hl => absurd rfl hl
      | _ :: _ :: _ :: _ :: _, _ => rfl
  · exact match data, hlen with
      | [], _ => rfl
      | [_], _ => rfl
      | [_, _], _ => rfl
      | [_, _, _], _ => rfl
      | [_, _, _, _], hl => absurd rfl hl
      | _ :: _ :: _ :: _ :: _ :: _, _ => rfl
  · exact match data, hlen with
      | [], _ => rfl
      | [_], _ => rfl
      | [_, _], _ => rfl
      | [_, _, _], _ => rfl
      | [_, _, _, _], _ => rfl
      | [_, _, _, _, _], hl => absurd rfl hl
      | _ :: _ :: _ :: _ :: _ :: _ :: _, _ => rfl

/-- C9 witness: a two-element data list for code `"RUN"`. -/
theorem claim_C9_witness :
    (List.length ([1, 1] : List ℚ) ≠ 3) ∧
    read_package "RUN" [1, 1] = Except.error (PyError.typeError 3 2) :=
  ⟨by decide, (claim_C9 ([1, 1] : List ℚ)).1 (by decide)⟩

/-- C10: with `action ≥ 0`, `weight ≥ 0`, `duration > 0` (and `height > 0`
for SportsWalking), every variant's `get_distance()`, `get_mean_speed()` and
`get_spent_calories()` are nonnegative. -/
theorem claim_C10 (a d w h pl pc : ℚ) (ha : 0 ≤ a) (hw : 0 ≤ w) (hd : 0 < d) (hh : 0 < h) :
    (0 ≤ (Training.running a d w).get_distance ∧
      0 ≤ (Training.running a d w).get_mean_speed ∧
      0 ≤ (Training.running a d w).get_spent_calories) ∧
    (0 ≤ (Training.sportsWalking a d w h).get_distance ∧
      0 ≤ (Training.sportsWalking a d w h).get_mean_speed ∧
      0 ≤ (Training.sportsWalking a d w h).get_spent_calories) ∧
    (0 ≤ (Training.swimming a d w pl pc).get_distance ∧
      0 ≤ (Training.swimming a d w pl pc).get_mean_speed ∧
      0 ≤ (Training.swimming a d w pl pc).get_spent_calories) := by
  simp only [Training.get_distance, Training.get_mean_speed, Training.get_spent_calories,
    Training.duration, Running.LEN_STEP, SportsWalking.LEN_STEP, Swimming.LEN_STEP,
    Running.CALORIES_MEAN_SPEED_MULTIPLIER, Running.CALORIES_MEAN_SPEED_SHIFT,
    SportsWalking.CALORIES_WEIGHT_MULTIPLIER, SportsWalking.CALORIES_SPEED_HEIGHT_MULTIPLIER,
    Swimming.CALORIES_SWIM_MULTIPLIER, Swimming.CALORIES_SWIM_SHIFT]
  refine ⟨⟨?_, ?_, ?_⟩, ⟨?_, ?_, ?_⟩, ⟨?_, ?_, ?_⟩⟩ <;> positivity

/-- C10 witness at the three sample sessions of the source's `main`. -/
theorem claim_C10_witness :
    ((0 : ℚ) ≤ 15000 ∧ (0 : ℚ) ≤ 75 ∧ (0 : ℚ) < 1 ∧ (0 : ℚ) < 180) ∧
    (0 ≤ (Training.running 15000 1 75).get_spent_calories ∧
      0 ≤ (Training.sportsWalking 15000 1 75 180).get_spent_calories ∧
      0 ≤ (Training.swimming 15000 1 75 25 40).get_spent_calories) := by
  have H := claim_C10 15000 1 75 180 25 40 (by norm_num) (by norm_num) (by norm_num) (by norm_num)
  exact ⟨⟨by norm_num, by norm_num, by norm_num, by norm_num⟩, H.1.2.2, H.2.1.2.2, H.2.2.2.2⟩

end Lab7
